import Mathlib

/-!
Shallow embedding of the point-generation and coordinate-mapping core of
`src/thm1pt1.go` (package main of the Computational-Geometry-Sandbox
repository), together with proofs settling the specification claims.

Modelling conventions:
* Go `float64`/`float32` values are modelled as rationals (`ℚ`), so the
  arithmetic of the transform is exact.
* The global `math/rand` source is modelled as a stream `rng : ℕ → ℚ` of the
  successive `rand.Float64()` results; `rand.Float64` returns values in
  `[0, 1)`.  `GeneratePoints` consumes two draws per point, x first: point
  `i` uses draws `2*i` and `2*i + 1`.
* Go's `make([]Point, n)` panics at runtime when `n < 0`; a panicking run of
  `GeneratePoints` is modelled as the result `none`.
-/

/-- Point (src/thm1pt1.go, lines 22-24): a 2D point with X and Y coordinates. -/
structure Point where
  X : ℚ
  Y : ℚ
deriving DecidableEq, Repr

/-- GUIConfig (src/thm1pt1.go, lines 27-35): configuration for the application.
The Go field types are int, float64 (domain bounds) and float32 (canvas sizes
and point size); the colour is an RGBA quadruple. -/
structure GUIConfig where
  NumPoints : Int
  MinX : ℚ
  MaxX : ℚ
  MinY : ℚ
  MaxY : ℚ
  CanvasWidth : ℚ
  CanvasHeight : ℚ
  PointSize : ℚ
  PointColor : ℕ × ℕ × ℕ × ℕ
deriving DecidableEq, Repr

/-- The initial configuration built by NewPointVisualizer
(src/thm1pt1.go, lines 50-60). -/
def defaultConfig : GUIConfig where
  NumPoints := 30
  MinX := 0
  MaxX := 100
  MinY := 0
  MaxY := 100
  CanvasWidth := 600
  CanvasHeight := 400
  PointSize := 6
  PointColor := (70, 130, 255, 255)

/-- GeneratePoints (src/thm1pt1.go, lines 71-79): allocates a slice of length
`NumPoints` (Go `make` panics for a negative length, modelled as `none`) and
fills it with `X = MinX + rand.Float64()*(MaxX-MinX)` and
`Y = MinY + rand.Float64()*(MaxY-MinY)`; point `i` consumes stream draws
`2*i` (for X) and `2*i+1` (for Y). -/
def generatePoints (cfg : GUIConfig) (rng : ℕ → ℚ) : Option (List Point) :=
  if cfg.NumPoints < 0 then none
  else some ((List.range cfg.NumPoints.toNat).map fun i =>
    { X := cfg.MinX + rng (2 * i) * (cfg.MaxX - cfg.MinX)
      Y := cfg.MinY + rng (2 * i + 1) * (cfg.MaxY - cfg.MinY) })

/-- The fixed canvas padding (src/thm1pt1.go, line 100). -/
def padding : ℚ := 20

/-- scaleX (src/thm1pt1.go, line 101). -/
def scaleX (cfg : GUIConfig) : ℚ :=
  (cfg.CanvasWidth - 2 * padding) / (cfg.MaxX - cfg.MinX)

/-- scaleY (src/thm1pt1.go, line 102). -/
def scaleY (cfg : GUIConfig) : ℚ :=
  (cfg.CanvasHeight - 2 * padding) / (cfg.MaxY - cfg.MinY)

/-- canvasX (src/thm1pt1.go, line 107): the X pixel coordinate of a point. -/
def canvasX (cfg : GUIConfig) (p : Point) : ℚ :=
  padding + (p.X - cfg.MinX) * scaleX cfg - cfg.PointSize / 2

/-- canvasY (src/thm1pt1.go, line 108): the (inverted) Y pixel coordinate. -/
def canvasY (cfg : GUIConfig) (p : Point) : ℚ :=
  padding + (cfg.MaxY - p.Y) * scaleY cfg - cfg.PointSize / 2

/-- The circle draw commands emitted by UpdateCanvas
(src/thm1pt1.go, lines 105-117): one circle per point, moved to
`(canvasX, canvasY)`.  UpdateCanvas performs no validation of the domain. -/
def updateCanvasCircles (cfg : GUIConfig) (points : List Point) : List (ℚ × ℚ) :=
  points.map fun p => (canvasX cfg p, canvasY cfg p)

/-- The configuration update performed by the generate-button handler
(src/thm1pt1.go, lines 190-201): each of the four range entries is parsed
independently; an entry that parses (`some v`) overwrites its field, a failed
parse (`none`) leaves that field at its prior value.  The handler then calls
GeneratePoints and UpdateCanvas with the resulting configuration. -/
def generateBtnConfig (cfg : GUIConfig) (xMin xMax yMin yMax : Option ℚ) :
    GUIConfig :=
  let c1 := match xMin with
    | some v => { cfg with MinX := v }
    | none => cfg
  let c2 := match xMax with
    | some v => { c1 with MaxX := v }
    | none => c1
  let c3 := match yMin with
    | some v => { c2 with MinY := v }
    | none => c2
  match yMax with
  | some v => { c3 with MaxY := v }
  | none => c3

/-- A random stream that always draws 1/2, used as concrete test input. -/
def rngHalf : ℕ → ℚ := fun _ => 1 / 2

/-- C1: for every configuration with MinX < MaxX, MinY < MaxY and
NumPoints ≥ 0, and every random stream drawing from [0, 1), GeneratePoints
succeeds and returns exactly NumPoints points, each with X in the half-open
interval [MinX, MaxX) and Y in [MinY, MaxY); for NumPoints = 0 it returns the
empty sequence. -/
theorem generatePoints_count_and_range (cfg : GUIConfig) (rng : ℕ → ℚ)
    (hx : cfg.MinX < cfg.MaxX) (hy : cfg.MinY < cfg.MaxY)
    (hn : 0 ≤ cfg.NumPoints) (hr : ∀ k, 0 ≤ rng k ∧ rng k < 1) :
    ∃ ps, generatePoints cfg rng = some ps ∧
      ps.length = cfg.NumPoints.toNat ∧
      (∀ p ∈ ps, cfg.MinX ≤ p.X ∧ p.X < cfg.MaxX ∧
        cfg.MinY ≤ p.Y ∧ p.Y < cfg.MaxY) ∧
      (cfg.NumPoints = 0 → ps = []) := by
  have hgen : generatePoints cfg rng =
      some ((List.range cfg.NumPoints.toNat).map fun i =>
        { X := cfg.MinX + rng (2 * i) * (cfg.MaxX - cfg.MinX)
          Y := cfg.MinY + rng (2 * i + 1) * (cfg.MaxY - cfg.MinY) }) := by
    unfold generatePoints
    rw [if_neg (not_lt.mpr hn)]
  refine ⟨_, hgen, by simp, ?_, ?_⟩
  · intro p hp
    simp only [List.mem_map, List.mem_range] at hp
    obtain ⟨i, _, rfl⟩ := hp
    obtain ⟨h0x, h1x⟩ := hr (2 * i)
    obtain ⟨h0y, h1y⟩ := hr (2 * i + 1)
    have hwx : (0 : ℚ) < cfg.MaxX - cfg.MinX := sub_pos.mpr hx
    have hwy : (0 : ℚ) < cfg.MaxY - cfg.MinY := sub_pos.mpr hy
    have hx0 : 0 ≤ rng (2 * i) * (cfg.MaxX - cfg.MinX) :=
      mul_nonneg h0x hwx.le
    have hx1 : rng (2 * i) * (cfg.MaxX - cfg.MinX) <
        1 * (cfg.MaxX - cfg.MinX) :=
      mul_lt_mul_of_pos_right h1x hwx
    have hy0 : 0 ≤ rng (2 * i + 1) * (cfg.MaxY - cfg.MinY) :=
      mul_nonneg h0y hwy.le
    have hy1 : rng (2 * i + 1) * (cfg.MaxY - cfg.MinY) <
        1 * (cfg.MaxY - cfg.MinY) :=
      mul_lt_mul_of_pos_right h1y hwy
    dsimp only
    refine ⟨by linarith, by nlinarith, by linarith, by nlinarith⟩
  · intro h0
    simp [h0]

/-- C1 witness: the default configuration (30 points over [0,100)²) and the
constant-1/2 stream satisfy all hypotheses of the C1 theorem. -/
theorem generatePoints_count_and_range_witness :
    ∃ ps, generatePoints defaultConfig rngHalf = some ps ∧
      ps.length = defaultConfig.NumPoints.toNat ∧
      (∀ p ∈ ps, defaultConfig.MinX ≤ p.X ∧ p.X < defaultConfig.MaxX ∧
        defaultConfig.MinY ≤ p.Y ∧ p.Y < defaultConfig.MaxY) ∧
      (defaultConfig.NumPoints = 0 → ps = []) :=
  generatePoints_count_and_range defaultConfig rngHalf
    (by norm_num [defaultConfig]) (by norm_num [defaultConfig])
    (by norm_num [defaultConfig]) (fun k => by norm_num [rngHalf])

/-- The configuration of the spec's concrete scenario: domain (0,100)×(0,100),
600×400 canvas, padding 20 (fixed in the code), point size `s`. -/
def cfgScenario (s : ℚ) : GUIConfig where
  NumPoints := 30
  MinX := 0
  MaxX := 100
  MinY := 0
  MaxY := 100
  CanvasWidth := 600
  CanvasHeight := 400
  PointSize := s
  PointColor := (70, 130, 255, 255)

/-- C2: the mapper computes `scaleX = (width - 2*padding)/(maxX - minX)` (and
symmetrically for Y), `px = padding + (x - minX)*scaleX - size/2` and the
inverted `py = padding + (maxY - y)*scaleY - size/2`; concretely, for domain
(0,100)×(0,100) on a 600×400 canvas with padding 20, the point (50,50) maps to
`scaleX = 5.6`, `scaleY = 3.6`, `px = 300` and `py = 200`, each minus half the
point size `s`. -/
theorem updateCanvas_mapping_concrete (s : ℚ) :
    (∀ cfg : GUIConfig, ∀ p : Point,
      canvasX cfg p = padding + (p.X - cfg.MinX) * scaleX cfg
        - cfg.PointSize / 2 ∧
      canvasY cfg p = padding + (cfg.MaxY - p.Y) * scaleY cfg
        - cfg.PointSize / 2) ∧
    scaleX (cfgScenario s) = 28 / 5 ∧
    scaleY (cfgScenario s) = 18 / 5 ∧
    canvasX (cfgScenario s) { X := 50, Y := 50 } = 300 - s / 2 ∧
    canvasY (cfgScenario s) { X := 50, Y := 50 } = 200 - s / 2 := by
  refine ⟨fun cfg p => ⟨rfl, rfl⟩, ?_, ?_, ?_, ?_⟩ <;>
    norm_num [scaleX, scaleY, canvasX, canvasY, padding, cfgScenario]

/-- A degenerate configuration (MinX = MaxX = 0) with one point, over a Y
domain of [0, 50). -/
def cfgDegX : GUIConfig :=
  { defaultConfig with
      NumPoints := 1
      MinX := 0
      MaxX := 0
      MinY := 0
      MaxY := 50 }

/-- C3 counterexample: for a domain with MinX = MaxX = 0 the generator does not
fail with an InvalidDomain error — it succeeds and produces a point set (here
the single degenerate point (0, 25)). -/
theorem generatePoints_invalid_domain_not_rejected :
    generatePoints cfgDegX rngHalf = some [{ X := 0, Y := 25 }] := by
  norm_num [generatePoints, cfgDegX, defaultConfig, rngHalf, List.range_succ]

/-- C3 amended: GeneratePoints performs no domain validation at all; for a
domain with MaxX ≤ MinX (and a nonnegative count) it still succeeds, returning
NumPoints points computed by the same formula (degenerate when the bounds
coincide) instead of failing with an InvalidDomain error. -/
theorem generatePoints_no_domain_validation (cfg : GUIConfig) (rng : ℕ → ℚ)
    (hx : cfg.MaxX ≤ cfg.MinX) (hn : 0 ≤ cfg.NumPoints) :
    ∃ ps, generatePoints cfg rng = some ps ∧
      ps.length = cfg.NumPoints.toNat := by
  have hgen : generatePoints cfg rng =
      some ((List.range cfg.NumPoints.toNat).map fun i =>
        { X := cfg.MinX + rng (2 * i) * (cfg.MaxX - cfg.MinX)
          Y := cfg.MinY + rng (2 * i + 1) * (cfg.MaxY - cfg.MinY) }) := by
    unfold generatePoints
    rw [if_neg (not_lt.mpr hn)]
  exact ⟨_, hgen, by simp⟩

/-- C3 witness: the amended theorem applied to the degenerate configuration
MinX = MaxX = 0. -/
theorem generatePoints_no_domain_validation_witness :
    ∃ ps, generatePoints cfgDegX rngHalf = some ps ∧
      ps.length = cfgDegX.NumPoints.toNat :=
  generatePoints_no_domain_validation cfgDegX rngHalf
    (by norm_num [cfgDegX, defaultConfig]) (by norm_num [cfgDegX, defaultConfig])

/-- C4: GeneratePoints is a pure function of the configuration and the random
stream — two runs with the same domain and count whose streams agree on the
2·NumPoints consumed draws (as identically-seeded sources do) return identical
point sequences: same length, same order, same coordinate values. -/
theorem generatePoints_deterministic (cfg : GUIConfig) (rng1 rng2 : ℕ → ℚ)
    (h : ∀ k < 2 * cfg.NumPoints.toNat, rng1 k = rng2 k) :
    generatePoints cfg rng1 = generatePoints cfg rng2 := by
  unfold generatePoints
  split
  · rfl
  · congr 1
    apply List.map_congr_left
    intro i hi
    rw [List.mem_range] at hi
    rw [h (2 * i) (by omega), h (2 * i + 1) (by omega)]

/-- A concrete random stream, drawing k/7 at position k (values stay in [0,1)
only for k < 7, which is irrelevant here). -/
def rngSeven : ℕ → ℚ := fun k => (k : ℚ) / 7

/-- A stream that agrees with rngSeven on the first four draws and differs
afterwards. -/
def rngSevenTail : ℕ → ℚ := fun k => if k < 4 then (k : ℚ) / 7 else 99

/-- A two-point variant of the default configuration. -/
def cfgTwo : GUIConfig := { defaultConfig with NumPoints := 2 }

/-- C4 witness: two streams agreeing on the four consumed draws give the same
two-point output. -/
theorem generatePoints_deterministic_witness :
    generatePoints cfgTwo rngSeven = generatePoints cfgTwo rngSevenTail :=
  generatePoints_deterministic cfgTwo rngSeven rngSevenTail (by
    intro k hk
    have h4 : k < 4 := by
      simpa [cfgTwo, defaultConfig] using hk
    simp [rngSeven, rngSevenTail, h4])

/-- C5: the Y mapping is strictly antitone — for two points with equal X and
p1.Y < p2.Y, mapped under a valid domain (MinY < MaxY) and a valid surface
(CanvasHeight > 2*padding), the canvas coordinate satisfies
canvasY p1 > canvasY p2: a higher domain Y maps to a smaller (upper)
canvas Y. -/
theorem canvasY_strict_antitone (cfg : GUIConfig) (p1 p2 : Point)
    (hdom : cfg.MinY < cfg.MaxY) (hsurf : 2 * padding < cfg.CanvasHeight)
    (hx : p1.X = p2.X) (hy : p1.Y < p2.Y) :
    canvasY cfg p1 > canvasY cfg p2 := by
  unfold canvasY
  have hs : 0 < scaleY cfg := by
    unfold scaleY
    exact div_pos (by linarith) (by linarith)
  have hmul : (cfg.MaxY - p2.Y) * scaleY cfg < (cfg.MaxY - p1.Y) * scaleY cfg :=
    mul_lt_mul_of_pos_right (by linarith) hs
  linarith

/-- C5 witness: under the default configuration, (10, 20) maps strictly below
(10, 30) on the canvas. -/
theorem canvasY_strict_antitone_witness :
    canvasY defaultConfig { X := 10, Y := 20 } >
      canvasY defaultConfig { X := 10, Y := 30 } :=
  canvasY_strict_antitone defaultConfig { X := 10, Y := 20 }
    { X := 10, Y := 30 } (by norm_num [defaultConfig])
    (by norm_num [defaultConfig, padding]) rfl (by norm_num)

/-- C6 counterexample: starting from the default configuration (MinX = 0,
MaxX = 100), a generate click whose X-min entry parses to 5 while the X-max
entry fails to parse updates MinX and leaves MaxX at its prior value — a
partial configuration update, not an all-or-nothing one. -/
theorem generateBtn_partial_update :
    (generateBtnConfig defaultConfig (some 5) none none none).MinX = 5 ∧
    (generateBtnConfig defaultConfig (some 5) none none none).MaxX = 100 := by
  constructor <;> rfl

/-- C6 amended: the generate handler updates the four domain fields
independently — each field whose entry parses is overwritten with the parsed
value even when another entry fails to parse, and each field whose entry fails
to parse keeps its prior value; no other configuration field is touched. -/
theorem generateBtnConfig_fieldwise (cfg : GUIConfig)
    (xMin xMax yMin yMax : Option ℚ) :
    (generateBtnConfig cfg xMin xMax yMin yMax).MinX = xMin.getD cfg.MinX ∧
    (generateBtnConfig cfg xMin xMax yMin yMax).MaxX = xMax.getD cfg.MaxX ∧
    (generateBtnConfig cfg xMin xMax yMin yMax).MinY = yMin.getD cfg.MinY ∧
    (generateBtnConfig cfg xMin xMax yMin yMax).MaxY = yMax.getD cfg.MaxY ∧
    (generateBtnConfig cfg xMin xMax yMin yMax).NumPoints = cfg.NumPoints ∧
    (generateBtnConfig cfg xMin xMax yMin yMax).PointSize = cfg.PointSize := by
  unfold generateBtnConfig
  rcases xMin with _ | a <;> rcases xMax with _ | b <;>
    rcases yMin with _ | c <;> rcases yMax with _ | d <;>
      exact ⟨rfl, rfl, rfl, rfl, rfl, rfl⟩

/-- A configuration whose Y axis has zero extent (MinY = MaxY = 0). -/
def cfgDegY : GUIConfig := { defaultConfig with MinY := 0, MaxY := 0 }

/-- C7 counterexample: a zero-extent Y axis reaching UpdateCanvas is neither
rejected with a DegenerateDomain error nor turned into a no-render no-op — a
circle draw command is still emitted for the point (50, 0). -/
theorem updateCanvas_degenerate_still_draws :
    (updateCanvasCircles cfgDegY [{ X := 50, Y := 0 }]).length = 1 := rfl

/-- C7 amended: UpdateCanvas performs no degenerate-domain check at all; even
when an axis has zero extent it emits one circle draw command per point
(at coordinates computed with the zero-width division) instead of failing or
drawing nothing. -/
theorem updateCanvas_no_degenerate_check (cfg : GUIConfig) (ps : List Point)
    (h : cfg.MaxX = cfg.MinX ∨ cfg.MaxY = cfg.MinY) :
    (updateCanvasCircles cfg ps).length = ps.length := by
  unfold updateCanvasCircles
  simp

/-- C7 witness: the amended theorem applied to the zero-extent-Y configuration
and a two-point list. -/
theorem updateCanvas_no_degenerate_check_witness :
    (updateCanvasCircles cfgDegY
      [{ X := 50, Y := 0 }, { X := 25, Y := 0 }]).length =
      ([{ X := 50, Y := 0 }, { X := 25, Y := 0 }] : List Point).length :=
  updateCanvas_no_degenerate_check cfgDegY
    [{ X := 50, Y := 0 }, { X := 25, Y := 0 }]
    (Or.inr (by norm_num [cfgDegY, defaultConfig]))

/-- C8: for every valid domain (MinX < MaxX, MinY < MaxY) and valid surface
(width and height exceeding 2*padding), each of the four domain corners —
ignoring the half-point-size offset, i.e. adding PointSize/2 back to the
code's result — maps into [padding, width - padding] × [padding,
height - padding]. -/
theorem corners_in_padded_rect (cfg : GUIConfig) (p : Point)
    (hx : cfg.MinX < cfg.MaxX) (hy : cfg.MinY < cfg.MaxY)
    (hw : 2 * padding < cfg.CanvasWidth) (hh : 2 * padding < cfg.CanvasHeight)
    (hpx : p.X = cfg.MinX ∨ p.X = cfg.MaxX)
    (hpy : p.Y = cfg.MinY ∨ p.Y = cfg.MaxY) :
    padding ≤ canvasX cfg p + cfg.PointSize / 2 ∧
    canvasX cfg p + cfg.PointSize / 2 ≤ cfg.CanvasWidth - padding ∧
    padding ≤ canvasY cfg p + cfg.PointSize / 2 ∧
    canvasY cfg p + cfg.PointSize / 2 ≤ cfg.CanvasHeight - padding := by
  have hdx : cfg.MaxX - cfg.MinX ≠ 0 := (sub_pos.mpr hx).ne'
  have hdy : cfg.MaxY - cfg.MinY ≠ 0 := (sub_pos.mpr hy).ne'
  have ex : canvasX cfg p + cfg.PointSize / 2 =
      padding + (p.X - cfg.MinX) * scaleX cfg := by
    unfold canvasX; ring
  have ey : canvasY cfg p + cfg.PointSize / 2 =
      padding + (cfg.MaxY - p.Y) * scaleY cfg := by
    unfold canvasY; ring
  have hsx1 : (cfg.MaxX - cfg.MinX) * scaleX cfg =
      cfg.CanvasWidth - 2 * padding := by
    unfold scaleX; field_simp
  have hsy1 : (cfg.MaxY - cfg.MinY) * scaleY cfg =
      cfg.CanvasHeight - 2 * padding := by
    unfold scaleY; field_simp
  rcases hpx with h | h <;> rcases hpy with h' | h' <;>
    rw [ex, ey, h, h'] <;>
    refine ⟨?_, ?_, ?_, ?_⟩ <;>
    simp only [sub_self, zero_mul, hsx1, hsy1] <;> linarith

/-- C8 witness: the corner (100, 0) of the default domain, on the default
600×400 surface, lands inside [20, 580] × [20, 380]. -/
theorem corners_in_padded_rect_witness :
    padding ≤ canvasX defaultConfig { X := 100, Y := 0 }
      + defaultConfig.PointSize / 2 ∧
    canvasX defaultConfig { X := 100, Y := 0 } + defaultConfig.PointSize / 2 ≤
      defaultConfig.CanvasWidth - padding ∧
    padding ≤ canvasY defaultConfig { X := 100, Y := 0 }
      + defaultConfig.PointSize / 2 ∧
    canvasY defaultConfig { X := 100, Y := 0 } + defaultConfig.PointSize / 2 ≤
      defaultConfig.CanvasHeight - padding :=
  corners_in_padded_rect defaultConfig { X := 100, Y := 0 }
    (by norm_num [defaultConfig]) (by norm_num [defaultConfig])
    (by norm_num [defaultConfig, padding]) (by norm_num [defaultConfig, padding])
    (Or.inr (by norm_num [defaultConfig])) (Or.inl (by norm_num [defaultConfig]))

/-- A configuration with a negative point count. -/
def cfgNeg : GUIConfig := { defaultConfig with NumPoints := -1 }

/-- C9 counterexample: a negative point count is not rejected with an
InvalidCount error — GeneratePoints reaches Go's `make` with a negative
length, which panics at runtime (modelled as `none`), so the generator does
crash rather than reject the input gracefully. -/
theorem generatePoints_negative_count_panics_concrete :
    generatePoints cfgNeg rngHalf = none := rfl

/-- C9 amended: for every configuration with a negative NumPoints,
GeneratePoints performs no count validation and panics at the slice
allocation (modelled as `none`); no point set and no InvalidCount error value
are produced. -/
theorem generatePoints_negative_count_panics (cfg : GUIConfig) (rng : ℕ → ℚ)
    (h : cfg.NumPoints < 0) : generatePoints cfg rng = none := by
  unfold generatePoints
  rw [if_pos h]

/-- C9 witness: the amended theorem applied to the count -1 with a different
stream. -/
theorem generatePoints_negative_count_panics_witness :
    generatePoints cfgNeg rngSeven = none :=
  generatePoints_negative_count_panics cfgNeg rngSeven
    (by norm_num [cfgNeg, defaultConfig])

/-- A configuration with both axes degenerate: MinX = MaxX = 3 and
MinY = MaxY = 7, with two points. -/
def cfgDegBoth : GUIConfig :=
  { defaultConfig with
      NumPoints := 2
      MinX := 3
      MaxX := 3
      MinY := 7
      MaxY := 7 }

/-- C10: a degenerate axis does not stop generation — for every configuration
with a nonnegative count, GeneratePoints succeeds with NumPoints points, and
whenever MinX = MaxX every generated point has X exactly MinX (the random draw
is scaled by the zero width); symmetrically MinY = MaxY forces Y = MinY. -/
theorem generatePoints_degenerate_axis (cfg : GUIConfig) (rng : ℕ → ℚ)
    (hn : 0 ≤ cfg.NumPoints) :
    ∃ ps, generatePoints cfg rng = some ps ∧
      ps.length = cfg.NumPoints.toNat ∧
      (cfg.MinX = cfg.MaxX → ∀ p ∈ ps, p.X = cfg.MinX) ∧
      (cfg.MinY = cfg.MaxY → ∀ p ∈ ps, p.Y = cfg.MinY) := by
  have hgen : generatePoints cfg rng =
      some ((List.range cfg.NumPoints.toNat).map fun i =>
        { X := cfg.MinX + rng (2 * i) * (cfg.MaxX - cfg.MinX)
          Y := cfg.MinY + rng (2 * i + 1) * (cfg.MaxY - cfg.MinY) }) := by
    unfold generatePoints
    rw [if_neg (not_lt.mpr hn)]
  refine ⟨_, hgen, by simp, ?_, ?_⟩
  · intro hxeq p hp
    simp only [List.mem_map, List.mem_range] at hp
    obtain ⟨i, _, rfl⟩ := hp
    dsimp only
    rw [← hxeq]
    ring
  · intro hyeq p hp
    simp only [List.mem_map, List.mem_range] at hp
    obtain ⟨i, _, rfl⟩ := hp
    dsimp only
    rw [← hyeq]
    ring

/-- C10 witness: with both axes degenerate, both points generated from the
constant-1/2 stream sit exactly at (3, 7). -/
theorem generatePoints_degenerate_axis_witness :
    ∃ ps, generatePoints cfgDegBoth rngHalf = some ps ∧
      ps.length = cfgDegBoth.NumPoints.toNat ∧
      (cfgDegBoth.MinX = cfgDegBoth.MaxX → ∀ p ∈ ps, p.X = cfgDegBoth.MinX) ∧
      (cfgDegBoth.MinY = cfgDegBoth.MaxY → ∀ p ∈ ps, p.Y = cfgDegBoth.MinY) :=
  generatePoints_degenerate_axis cfgDegBoth rngHalf
    (by norm_num [cfgDegBoth, defaultConfig])
